import Mathlib

/-!
Verification of the rugcheck-api risk-scoring core (`src/index.ts`).

The TypeScript source is shallowly embedded: interfaces become structures,
optional fields become `Option`, JavaScript numbers on the tax/percent paths
become `ℚ`, and the pure functions `parseContractInfo`, `parseTokenInfo`,
`analyzeContract`, `calculateRiskScore`, `getRiskLevel`, `checkHoneypot`,
`checkToken` and `checkTokens` become Lean functions of the same names.
Network effects are factored out: `checkToken` takes the (possibly absent)
fetched GoPlus record as a parameter, and `checkTokens` takes a pure fetch
oracle, mirroring the data flow of the async originals.

JavaScript value conventions used throughout the embedding:
  * a string is truthy iff it is nonempty;
  * a number is truthy iff it is nonzero (and not NaN);
  * `parseFloat` / `parseInt` parse a maximal numeric prefix and yield NaN
    when no digit is found.  NaN is modelled as `none`; this is
    observationally equivalent downstream because NaN is falsy and every
    consumer of a parsed number first tests its truthiness.
-/

namespace Rugcheck

/-- Severity of one risk finding (the `Risk['severity']` union type). -/
inductive Severity where
  | low
  | medium
  | high
  | critical
  deriving DecidableEq, Repr

/-- Risk band (the `TokenCheck['riskLevel']` union type). -/
inductive RiskLevel where
  | safe
  | low
  | medium
  | high
  | critical
  deriving DecidableEq, Repr

/-- One risk finding (interface `Risk`). -/
structure Risk where
  type : String
  severity : Severity
  description : String
  deriving DecidableEq, Repr

/-- Canonical contract snapshot (interface `ContractInfo`).
Optional TypeScript fields are `Option`; tax percentages are rationals. -/
structure ContractInfo where
  verified : Bool
  renounced : Bool
  owner : Option String := none
  creator : Option String := none
  mintable : Bool
  pausable : Bool
  blacklist : Bool
  whitelist : Bool
  proxy : Bool
  selfDestruct : Bool
  externalCall : Bool
  buyTax : Option ℚ := none
  sellTax : Option ℚ := none
  cannotBuy : Bool
  cannotSellAll : Bool
  slippageModifiable : Bool
  hiddenOwner : Bool
  antiWhale : Bool
  tradingCooldown : Bool
  deriving DecidableEq, Repr

/-- Supplementary token distribution data (interface `TokenInfo`). -/
structure TokenInfo where
  name : Option String := none
  symbol : Option String := none
  totalSupply : Option String := none
  decimals : Option ℤ := none
  holderCount : Option ℤ := none
  lpHolderCount : Option ℤ := none
  lpTotalSupply : Option String := none
  creatorPercent : Option ℚ := none
  ownerPercent : Option ℚ := none
  top10HolderPercent : Option ℚ := none
  deriving DecidableEq, Repr

/-- One entry of the raw `holders` array (`{ address, percent }`). -/
structure GoPlusHolder where
  address : String
  percent : String
  deriving DecidableEq, Repr

/-- Raw provider record (interface `GoPlusTokenData`): every field is an
optional provider-encoded string, holders an optional array. -/
structure GoPlusTokenData where
  token_name : Option String := none
  token_symbol : Option String := none
  total_supply : Option String := none
  holder_count : Option String := none
  lp_holder_count : Option String := none
  lp_total_supply : Option String := none
  is_honeypot : Option String := none
  honeypot_with_same_creator : Option String := none
  is_open_source : Option String := none
  is_proxy : Option String := none
  is_mintable : Option String := none
  can_take_back_ownership : Option String := none
  owner_change_balance : Option String := none
  hidden_owner : Option String := none
  selfdestruct : Option String := none
  external_call : Option String := none
  buy_tax : Option String := none
  sell_tax : Option String := none
  cannot_buy : Option String := none
  cannot_sell_all : Option String := none
  slippage_modifiable : Option String := none
  is_blacklisted : Option String := none
  is_whitelisted : Option String := none
  is_anti_whale : Option String := none
  trading_cooldown : Option String := none
  transfer_pausable : Option String := none
  owner_address : Option String := none
  creator_address : Option String := none
  creator_percent : Option String := none
  owner_percent : Option String := none
  holders : Option (List GoPlusHolder) := none
  deriving DecidableEq, Repr

/-- The full result record (interface `TokenCheck`). -/
structure TokenCheck where
  address : String
  chain : String
  isHoneypot : Bool
  isRugPull : Bool
  riskScore : ℕ
  riskLevel : RiskLevel
  risks : List Risk
  contract : ContractInfo
  tokenInfo : Option TokenInfo
  timestamp : ℤ
  deriving DecidableEq, Repr

/-- JavaScript truthiness of an optional string: present and nonempty. -/
def strTruthy : Option String → Bool
  | some s => decide (s ≠ "")
  | none => false

/-- Numeric value of a digit string read left to right. -/
def digitsVal (cs : List Char) : ℕ :=
  cs.foldl (fun a c => a * 10 + (c.toNat - Char.toNat '0')) 0

/-- Model of JavaScript `parseFloat` on plain decimal literals: optional
sign, then a maximal run of digits, then an optional fractional part; any
trailing junk is ignored (prefix semantics).  `none` models NaN (no digit
found).  Exponent notation and special forms are outside the model; no
claim exercises them. -/
def parseFloatQ (s : String) : Option ℚ :=
  let cs := s.data
  let signed : Bool × List Char :=
    match cs with
    | '-' :: r => (true, r)
    | '+' :: r => (false, r)
    | _ => (false, cs)
  let ip := signed.2.takeWhile Char.isDigit
  let rest := signed.2.dropWhile Char.isDigit
  let fp :=
    match rest with
    | '.' :: r => r.takeWhile Char.isDigit
    | _ => []
  if ip.isEmpty ∧ fp.isEmpty then none
  else
    let mag : ℚ := (digitsVal ip : ℚ) + (digitsVal fp : ℚ) / ((10 : ℚ) ^ fp.length)
    some (if signed.1 then -mag else mag)

/-- Model of JavaScript `parseInt` (base 10): optional sign then a maximal
run of digits; `none` models NaN. -/
def parseIntZ (s : String) : Option ℤ :=
  let cs := s.data
  let signed : Bool × List Char :=
    match cs with
    | '-' :: r => (true, r)
    | '+' :: r => (false, r)
    | _ => (false, cs)
  let ip := signed.2.takeWhile Char.isDigit
  if ip.isEmpty then none
  else
    let mag : ℤ := (digitsVal ip : ℤ)
    some (if signed.1 then -mag else mag)

/-- Model of `Number.prototype.toFixed(1)` for the nonnegative decimal
values that reach it (tax and concentration percentages): round to one
decimal place and render.  Binary-float rounding artifacts are outside the
model; no claim depends on description strings. -/
def toFixed1 (q : ℚ) : String :=
  let n : ℤ := ⌊q * 10 + 1 / 2⌋
  toString (n / 10) ++ "." ++ toString (n % 10)

/-- The canonical zero address used by `parseContractInfo`. -/
def zeroAddress : String := "0x0000000000000000000000000000000000000000"

/-- `parseContractInfo` (src/index.ts lines 148-170): decode a raw GoPlus
record into `ContractInfo`.  Boolean flags are `field === '1'`; `renounced`
is `!data.owner_address || data.owner_address === zeroAddress`; tax fields
are `data.x ? parseFloat(data.x) * 100 : undefined`. -/
def parseContractInfo (data : GoPlusTokenData) : ContractInfo where
  verified := decide (data.is_open_source = some "1")
  renounced := !strTruthy data.owner_address || decide (data.owner_address = some zeroAddress)
  owner := data.owner_address
  creator := data.creator_address
  mintable := decide (data.is_mintable = some "1")
  pausable := decide (data.transfer_pausable = some "1")
  blacklist := decide (data.is_blacklisted = some "1")
  whitelist := decide (data.is_whitelisted = some "1")
  proxy := decide (data.is_proxy = some "1")
  selfDestruct := decide (data.selfdestruct = some "1")
  externalCall := decide (data.external_call = some "1")
  buyTax :=
    match data.buy_tax with
    | some s => if s ≠ "" then (parseFloatQ s).map (· * 100) else none
    | none => none
  sellTax :=
    match data.sell_tax with
    | some s => if s ≠ "" then (parseFloatQ s).map (· * 100) else none
    | none => none
  cannotBuy := decide (data.cannot_buy = some "1")
  cannotSellAll := decide (data.cannot_sell_all = some "1")
  slippageModifiable := decide (data.slippage_modifiable = some "1")
  hiddenOwner := decide (data.hidden_owner = some "1")
  antiWhale := decide (data.is_anti_whale = some "1")
  tradingCooldown := decide (data.trading_cooldown = some "1")

/-- The `percent` string of one holder entry with the `h.percent || '0'`
fallback applied, parsed. -/
def holderPercentQ (h : GoPlusHolder) : Option ℚ :=
  parseFloatQ (if h.percent ≠ "" then h.percent else "0")

/-- `parseTokenInfo` (src/index.ts lines 175-194): decode a raw GoPlus
record into `TokenInfo`.  `top10HolderPercent` sums `parseFloat(h.percent
|| '0')` over the first 10 holder entries (0 when the array is absent) and
scales by 100; the `mapM` makes a NaN summand poison the sum to `none`,
matching NaN propagation through the JavaScript fold. -/
def parseTokenInfo (data : GoPlusTokenData) : TokenInfo :=
  let top10Percent : Option ℚ :=
    match data.holders with
    | some hs => ((hs.take 10).mapM holderPercentQ).map List.sum
    | none => some 0
  { name := data.token_name
    symbol := data.token_symbol
    totalSupply := data.total_supply
    decimals := none
    holderCount :=
      match data.holder_count with
      | some s => if s ≠ "" then parseIntZ s else none
      | none => none
    lpHolderCount :=
      match data.lp_holder_count with
      | some s => if s ≠ "" then parseIntZ s else none
      | none => none
    lpTotalSupply := data.lp_total_supply
    creatorPercent :=
      match data.creator_percent with
      | some s => if s ≠ "" then (parseFloatQ s).map (· * 100) else none
      | none => none
    ownerPercent :=
      match data.owner_percent with
      | some s => if s ≠ "" then (parseFloatQ s).map (· * 100) else none
      | none => none
    top10HolderPercent := top10Percent.map (· * 100) }

/-- `analyzeContract` (src/index.ts lines 199-362): evaluate the fixed
if-chain of risk rules in source order, concatenating one conditional
singleton per `risks.push` site.  A JavaScript guard `x && x > k` on an
optional number is rendered as a match plus `t ≠ 0 ∧ k < t` (number
truthiness). -/
def analyzeContract (contract : ContractInfo) (tokenInfo : Option TokenInfo) : List Risk :=
  (if contract.cannotSellAll then
    [{ type := "cannot_sell", severity := Severity.critical,
       description := "Token cannot be sold completely - likely honeypot" }] else [])
  ++ (if contract.cannotBuy then
    [{ type := "cannot_buy", severity := Severity.critical,
       description := "Token cannot be bought - trading disabled" }] else [])
  ++ (if contract.selfDestruct then
    [{ type := "self_destruct", severity := Severity.critical,
       description := "Contract has self-destruct function - funds can be drained" }] else [])
  ++ (if !contract.verified then
    [{ type := "unverified", severity := Severity.high,
       description := "Contract source code is not verified" }] else [])
  ++ (if contract.mintable then
    [{ type := "mintable", severity := Severity.high,
       description := "Token supply can be increased (mintable)" }] else [])
  ++ (if contract.hiddenOwner then
    [{ type := "hidden_owner", severity := Severity.high,
       description := "Contract has hidden owner functions" }] else [])
  ++ (if contract.externalCall then
    [{ type := "external_call", severity := Severity.high,
       description := "Contract makes external calls - potential exploit vector" }] else [])
  ++ (match contract.sellTax with
    | some t =>
      if t ≠ 0 ∧ 10 < t then
        [{ type := "high_sell_tax",
           severity := if 30 < t then Severity.critical else Severity.high,
           description := "High sell tax: " ++ toFixed1 t ++ "%" }]
      else []
    | none => [])
  ++ (match contract.buyTax with
    | some t =>
      if t ≠ 0 ∧ 10 < t then
        [{ type := "high_buy_tax",
           severity := if 30 < t then Severity.critical else Severity.high,
           description := "High buy tax: " ++ toFixed1 t ++ "%" }]
      else []
    | none => [])
  ++ (if !contract.renounced && strTruthy contract.owner then
    [{ type := "ownership", severity := Severity.medium,
       description := "Contract ownership has not been renounced" }] else [])
  ++ (if contract.pausable then
    [{ type := "pausable", severity := Severity.medium,
       description := "Contract can be paused, blocking transfers" }] else [])
  ++ (if contract.blacklist then
    [{ type := "blacklist", severity := Severity.medium,
       description := "Contract has blacklist functionality" }] else [])
  ++ (if contract.proxy then
    [{ type := "proxy", severity := Severity.medium,
       description := "Contract is upgradeable (proxy pattern)" }] else [])
  ++ (if contract.slippageModifiable then
    [{ type := "slippage_modifiable", severity := Severity.medium,
       description := "Slippage/tax can be modified by owner" }] else [])
  ++ (match tokenInfo with
    | some ti =>
      (match ti.creatorPercent with
        | some p =>
          if p ≠ 0 ∧ 10 < p then
            [{ type := "creator_concentration",
               severity := if 30 < p then Severity.high else Severity.medium,
               description := "Creator holds " ++ toFixed1 p ++ "% of supply" }]
          else []
        | none => [])
      ++ (match ti.top10HolderPercent with
        | some p =>
          if p ≠ 0 ∧ 50 < p then
            [{ type := "holder_concentration",
               severity := if 70 < p then Severity.high else Severity.medium,
               description := "Top 10 holders control " ++ toFixed1 p ++ "% of supply" }]
          else []
        | none => [])
      ++ (match ti.holderCount with
        | some n =>
          if n ≠ 0 ∧ n < 50 then
            [{ type := "low_holders", severity := Severity.low,
               description := "Only " ++ toString n ++ " holders - low distribution" }]
          else []
        | none => [])
    | none => [])
  ++ (if contract.antiWhale then
    [{ type := "anti_whale", severity := Severity.low,
       description := "Anti-whale mechanism enabled (may limit large transactions)" }] else [])
  ++ (if contract.tradingCooldown then
    [{ type := "trading_cooldown", severity := Severity.low,
       description := "Trading cooldown enabled between transactions" }] else [])

/-- The per-severity weight table of `calculateRiskScore`. -/
def severityWeight : Severity → ℕ
  | Severity.low => 5
  | Severity.medium => 15
  | Severity.high => 25
  | Severity.critical => 40

/-- `calculateRiskScore` (src/index.ts lines 367-377): weighted sum of the
findings, clamped to 100 via `Math.min`. -/
def calculateRiskScore (risks : List Risk) : ℕ :=
  let score := risks.foldl (fun sum r => sum + severityWeight r.severity) 0
  min 100 score

/-- `getRiskLevel` (src/index.ts lines 382-388): step function of the
score. -/
def getRiskLevel (score : ℕ) : RiskLevel :=
  if score < 15 then RiskLevel.safe
  else if score < 35 then RiskLevel.low
  else if score < 55 then RiskLevel.medium
  else if score < 75 then RiskLevel.high
  else RiskLevel.critical

/-- `checkHoneypot` (src/index.ts lines 393-403): the four early-return
tests, in source order, as a boolean disjunction. -/
def checkHoneypot (data : Option GoPlusTokenData) (contract : ContractInfo) : Bool :=
  (match data with
    | some g => decide (g.is_honeypot = some "1")
    | none => false)
  || (match data with
    | some g => decide (g.honeypot_with_same_creator = some "1")
    | none => false)
  || contract.cannotSellAll
  || (match contract.sellTax with
    | some t => decide (t ≠ 0) && decide ((50 : ℚ) < t)
    | none => false)

/-- The inline all-false `ContractInfo` literal that `checkToken` builds
when the fetch returned no data (src/index.ts lines 415-431); every
optional field is omitted there, hence `none` here. -/
def fallbackContractInfo : ContractInfo where
  verified := false
  renounced := false
  mintable := false
  pausable := false
  blacklist := false
  whitelist := false
  proxy := false
  selfDestruct := false
  externalCall := false
  cannotBuy := false
  cannotSellAll := false
  slippageModifiable := false
  hiddenOwner := false
  antiWhale := false
  tradingCooldown := false

/-- `checkToken` (src/index.ts lines 408-455) with its two effects
factored out as parameters: `goPlusData` is the value of `await
fetchGoPlusData(chain, address)` (already `none` on unsupported chain,
network failure or not-found), and `timestamp` is `Date.now()`. -/
def checkToken (address chain : String) (goPlusData : Option GoPlusTokenData)
    (timestamp : ℤ) : TokenCheck :=
  let contract :=
    match goPlusData with
    | some d => parseContractInfo d
    | none => fallbackContractInfo
  let tokenInfo := goPlusData.map parseTokenInfo
  let risks := analyzeContract contract tokenInfo
  let riskScore := calculateRiskScore risks
  let riskLevel := getRiskLevel riskScore
  let isHoneypot := checkHoneypot goPlusData contract
  let isRugPull := decide (70 ≤ riskScore) || isHoneypot
  { address := address
    chain := chain
    isHoneypot := isHoneypot
    isRugPull := isRugPull
    riskScore := riskScore
    riskLevel := riskLevel
    risks := risks
    contract := contract
    tokenInfo := tokenInfo
    timestamp := timestamp }

/-- `checkTokens` (src/index.ts lines 460-474) with the fetch factored out
as a pure oracle: slices of 5 are checked and appended in input order,
modelling the windowed `Promise.all` loop (each window's results arrive in
`batch.map` order). -/
def checkTokens (fetch : String → String → Option GoPlusTokenData) (ts : ℤ) :
    List (String × String) → List TokenCheck
  | [] => []
  | p :: rest =>
    ((p :: rest).take 5).map (fun q => checkToken q.1 q.2 (fetch q.1 q.2) ts)
      ++ checkTokens fetch ts ((p :: rest).drop 5)
termination_by l => l.length
decreasing_by simp [List.length_drop]; omega

/-- One declarative rule of the spec's rule table (§4.2): a decidable
condition over the attribute pair and the finding it appends when the
condition holds. -/
structure RiskRule where
  cond : ContractInfo → Option TokenInfo → Bool
  make : ContractInfo → Option TokenInfo → Risk

/-- Modelled from the spec: the ordered rule table of §4.2 (19 rows,
declaration order cannot_sell … trading_cooldown), each row's condition and
tiered severity as the code evaluates them.  `analyzeContract` is proved
equal to evaluating this table in order. -/
def ruleTable : List RiskRule := [
  { cond := fun c _ => c.cannotSellAll,
    make := fun _ _ =>
      { type := "cannot_sell", severity := Severity.critical,
        description := "Token cannot be sold completely - likely honeypot" } },
  { cond := fun c _ => c.cannotBuy,
    make := fun _ _ =>
      { type := "cannot_buy", severity := Severity.critical,
        description := "Token cannot be bought - trading disabled" } },
  { cond := fun c _ => c.selfDestruct,
    make := fun _ _ =>
      { type := "self_destruct", severity := Severity.critical,
        description := "Contract has self-destruct function - funds can be drained" } },
  { cond := fun c _ => !c.verified,
    make := fun _ _ =>
      { type := "unverified", severity := Severity.high,
        description := "Contract source code is not verified" } },
  { cond := fun c _ => c.mintable,
    make := fun _ _ =>
      { type := "mintable", severity := Severity.high,
        description := "Token supply can be increased (mintable)" } },
  { cond := fun c _ => c.hiddenOwner,
    make := fun _ _ =>
      { type := "hidden_owner", severity := Severity.high,
        description := "Contract has hidden owner functions" } },
  { cond := fun c _ => c.externalCall,
    make := fun _ _ =>
      { type := "external_call", severity := Severity.high,
        description := "Contract makes external calls - potential exploit vector" } },
  { cond := fun c _ =>
      match c.sellTax with
      | some t => decide (t ≠ 0) && decide ((10 : ℚ) < t)
      | none => false,
    make := fun c _ =>
      let t := c.sellTax.getD 0
      { type := "high_sell_tax",
        severity := if 30 < t then Severity.critical else Severity.high,
        description := "High sell tax: " ++ toFixed1 t ++ "%" } },
  { cond := fun c _ =>
      match c.buyTax with
      | some t => decide (t ≠ 0) && decide ((10 : ℚ) < t)
      | none => false,
    make := fun c _ =>
      let t := c.buyTax.getD 0
      { type := "high_buy_tax",
        severity := if 30 < t then Severity.critical else Severity.high,
        description := "High buy tax: " ++ toFixed1 t ++ "%" } },
  { cond := fun c _ => !c.renounced && strTruthy c.owner,
    make := fun _ _ =>
      { type := "ownership", severity := Severity.medium,
        description := "Contract ownership has not been renounced" } },
  { cond := fun c _ => c.pausable,
    make := fun _ _ =>
      { type := "pausable", severity := Severity.medium,
        description := "Contract can be paused, blocking transfers" } },
  { cond := fun c _ => c.blacklist,
    make := fun _ _ =>
      { type := "blacklist", severity := Severity.medium,
        description := "Contract has blacklist functionality" } },
  { cond := fun c _ => c.proxy,
    make := fun _ _ =>
      { type := "proxy", severity := Severity.medium,
        description := "Contract is upgradeable (proxy pattern)" } },
  { cond := fun c _ => c.slippageModifiable,
    make := fun _ _ =>
      { type := "slippage_modifiable", severity := Severity.medium,
        description := "Slippage/tax can be modified by owner" } },
  { cond := fun _ ti =>
      match ti with
      | some ti =>
        (match ti.creatorPercent with
          | some p => decide (p ≠ 0) && decide ((10 : ℚ) < p)
          | none => false)
      | none => false,
    make := fun _ ti =>
      let p := (ti.bind TokenInfo.creatorPercent).getD 0
      { type := "creator_concentration",
        severity := if 30 < p then Severity.high else Severity.medium,
        description := "Creator holds " ++ toFixed1 p ++ "% of supply" } },
  { cond := fun _ ti =>
      match ti with
      | some ti =>
        (match ti.top10HolderPercent with
          | some p => decide (p ≠ 0) && decide ((50 : ℚ) < p)
          | none => false)
      | none => false,
    make := fun _ ti =>
      let p := (ti.bind TokenInfo.top10HolderPercent).getD 0
      { type := "holder_concentration",
        severity := if 70 < p then Severity.high else Severity.medium,
        description := "Top 10 holders control " ++ toFixed1 p ++ "% of supply" } },
  { cond := fun _ ti =>
      match ti with
      | some ti =>
        (match ti.holderCount with
          | some n => decide (n ≠ 0) && decide (n < 50)
          | none => false)
      | none => false,
    make := fun _ ti =>
      let n := (ti.bind TokenInfo.holderCount).getD 0
      { type := "low_holders", severity := Severity.low,
        description := "Only " ++ toString n ++ " holders - low distribution" } },
  { cond := fun c _ => c.antiWhale,
    make := fun _ _ =>
      { type := "anti_whale", severity := Severity.low,
        description := "Anti-whale mechanism enabled (may limit large transactions)" } },
  { cond := fun c _ => c.tradingCooldown,
    make := fun _ _ =>
      { type := "trading_cooldown", severity := Severity.low,
        description := "Trading cooldown enabled between transactions" } }]

/-- Modelled from the spec: evaluate the ordered rule table, keeping the
findings of exactly the rules whose conditions hold, in table order. -/
def evalRules (c : ContractInfo) (t : Option TokenInfo) : List Risk :=
  (ruleTable.filter (fun r => r.cond c t)).map (fun r => r.make c t)

/-- The fixed vocabulary of risk type tags, in rule declaration order. -/
def allRiskTypes : List String :=
  ["cannot_sell", "cannot_buy", "self_destruct", "unverified", "mintable",
   "hidden_owner", "external_call", "high_sell_tax", "high_buy_tax",
   "ownership", "pausable", "blacklist", "proxy", "slippage_modifiable",
   "creator_concentration", "holder_concentration", "low_holders",
   "anti_whale", "trading_cooldown"]

/-- `allRiskTypes` minus `high_buy_tax`: the tags still reachable when the
buy-tax rule cannot fire. -/
def riskTypesNoBuyTax : List String :=
  ["cannot_sell", "cannot_buy", "self_destruct", "unverified", "mintable",
   "hidden_owner", "external_call", "high_sell_tax",
   "ownership", "pausable", "blacklist", "proxy", "slippage_modifiable",
   "creator_concentration", "holder_concentration", "low_holders",
   "anti_whale", "trading_cooldown"]

/-- A `ContractInfo` with every boolean field false and every optional
field unset (the input of the spec's clean-profile property). -/
def allFalseContract : ContractInfo where
  verified := false
  renounced := false
  mintable := false
  pausable := false
  blacklist := false
  whitelist := false
  proxy := false
  selfDestruct := false
  externalCall := false
  cannotBuy := false
  cannotSellAll := false
  slippageModifiable := false
  hiddenOwner := false
  antiWhale := false
  tradingCooldown := false

/-- Like `allFalseContract` but with `verified := true`: the profile that
actually yields an empty risk list. -/
def verifiedCleanContract : ContractInfo :=
  { allFalseContract with verified := true }

/-- A contract with `sellTax = 60` and every risk flag false (the spec's
honeypot-verdict test input). -/
def sellTax60Contract : ContractInfo :=
  { allFalseContract with sellTax := some 60 }

/-- A contract with `cannotSellAll`, `mintable` and `pausable` true and
`sellTax = 35` (rule-order and tiering witness input). -/
def orderedRiskContract : ContractInfo :=
  { allFalseContract with
    cannotSellAll := true
    mintable := true
    pausable := true
    sellTax := some 35 }

/-- A raw record whose `buy_tax` is the literal string "0". -/
def buyTaxZeroData : GoPlusTokenData where
  buy_tax := some "0"

/-- A raw record with three holder entries at 10%, 20% and 30% (fraction
scale). -/
def threeHoldersData : GoPlusTokenData where
  holders := some [{ address := "0xa", percent := "0.1" },
                   { address := "0xb", percent := "0.2" },
                   { address := "0xc", percent := "0.3" }]

/-- A fetch oracle for the batch witness: address "0xaaa" resolves, every
other address fails. -/
def exampleFetch : String → String → Option GoPlusTokenData :=
  fun address _ =>
    if address = "0xaaa" then some { is_open_source := some "1" } else none

/-- The batch witness input: a resolving pair followed by a failing pair. -/
def exampleBatch : List (String × String) :=
  [("0xaaa", "ethereum"), ("0xbbb", "bsc")]

/-- A junk default used only as the `List.getD` fallback in closed witness
statements. -/
def junkTokenCheck : TokenCheck :=
  checkToken "" "" none 0

/-! ## Helper lemmas -/

theorem filter_map_cons_rule (p : RiskRule → Bool) (f : RiskRule → Risk)
    (r : RiskRule) (l : List RiskRule) :
    ((r :: l).filter p).map f = (if p r = true then [f r] else []) ++ ((l.filter p).map f) := by
  by_cases h : p r = true <;> simp [List.filter_cons, h]

/-- The if-chain of `analyzeContract` evaluates the declarative rule table
in order: the code's risk list is exactly the table rows whose conditions
hold, in table order. -/
theorem analyzeContract_eq_evalRules (c : ContractInfo) (t : Option TokenInfo) :
    analyzeContract c t = evalRules c t := by
  obtain ⟨v, ren, ow, cr, mi, pa, bl, wh, pr, sd, ec, bt, st, cb, csa, sm, ho, aw, tc⟩ := c
  simp only [evalRules, ruleTable, filter_map_cons_rule, List.filter_nil, List.map_nil,
    List.append_nil]
  rcases t with _ | ti
  · rcases bt with _ | btq <;> rcases st with _ | stq <;>
      simp [analyzeContract, Option.getD]
  · obtain ⟨n, sy, tsup, de, hc, lhc, lts, cp, op, thp⟩ := ti
    rcases bt with _ | btq <;> rcases st with _ | stq <;>
      rcases cp with _ | cpq <;> rcases thp with _ | thpq <;> rcases hc with _ | hcn <;>
      simp [analyzeContract, Option.getD]

theorem blockTypes_sublist (cond : Prop) [Decidable cond] (r : Risk) :
    List.Sublist ((if cond then [r] else []).map Risk.type) [r.type] := by
  split <;> simp

set_option maxHeartbeats 1000000 in
/-- The type tags of a risk list form a subsequence of the fixed vocabulary
in rule order (hence each tag appears at most once). -/
theorem analyzeContract_types_sublist (c : ContractInfo) (t : Option TokenInfo) :
    List.Sublist ((analyzeContract c t).map Risk.type) allRiskTypes := by
  show List.Sublist _
    (["cannot_sell"] ++ ["cannot_buy"] ++ ["self_destruct"] ++ ["unverified"] ++
     ["mintable"] ++ ["hidden_owner"] ++ ["external_call"] ++ ["high_sell_tax"] ++
     ["high_buy_tax"] ++ ["ownership"] ++ ["pausable"] ++ ["blacklist"] ++
     ["proxy"] ++ ["slippage_modifiable"] ++ (["creator_concentration"] ++
     ["holder_concentration"] ++ ["low_holders"]) ++ ["anti_whale"] ++
     ["trading_cooldown"])
  unfold analyzeContract
  simp only [List.map_append]
  refine List.Sublist.append ?_ (blockTypes_sublist _ _)
  refine List.Sublist.append ?_ (blockTypes_sublist _ _)
  refine List.Sublist.append ?_ ?_
  case refine_2 =>
    rcases t with _ | ti
    · simp
    · simp only [List.map_append]
      refine List.Sublist.append (List.Sublist.append ?_ ?_) ?_
      · rcases ti.creatorPercent with _ | q
        · simp
        · exact blockTypes_sublist _ _
      · rcases ti.top10HolderPercent with _ | q
        · simp
        · exact blockTypes_sublist _ _
      · rcases ti.holderCount with _ | q
        · simp
        · exact blockTypes_sublist _ _
  refine List.Sublist.append ?_ (blockTypes_sublist _ _)
  refine List.Sublist.append ?_ (blockTypes_sublist _ _)
  refine List.Sublist.append ?_ (blockTypes_sublist _ _)
  refine List.Sublist.append ?_ (blockTypes_sublist _ _)
  refine List.Sublist.append ?_ (blockTypes_sublist _ _)
  refine List.Sublist.append ?_ ?_
  case refine_2 =>
    rcases c.buyTax with _ | q
    · simp
    · exact blockTypes_sublist _ _
  refine List.Sublist.append ?_ ?_
  case refine_2 =>
    rcases c.sellTax with _ | q
    · simp
    · exact blockTypes_sublist _ _
  refine List.Sublist.append ?_ (blockTypes_sublist _ _)
  refine List.Sublist.append ?_ (blockTypes_sublist _ _)
  refine List.Sublist.append ?_ (blockTypes_sublist _ _)
  refine List.Sublist.append ?_ (blockTypes_sublist _ _)
  refine List.Sublist.append ?_ (blockTypes_sublist _ _)
  refine List.Sublist.append ?_ (blockTypes_sublist _ _)
  apply blockTypes_sublist

theorem allRiskTypes_nodup : allRiskTypes.Nodup := by decide

theorem sublist_cons_skip {α : Type} {l r : List α} (s : List α)
    (h : List.Sublist l r) : List.Sublist l (s ++ r) :=
  h.trans (List.sublist_append_right s r)

end Rugcheck

namespace Rugcheck

/-- C1 counterexample: on the all-false `ContractInfo` with no `TokenInfo`,
`analyzeContract` returns the `unverified` finding (because `verified` is
false), not the empty sequence, and its score is 25, not 0. -/
theorem c1_counterexample :
    analyzeContract allFalseContract none =
      [{ type := "unverified", severity := Severity.high,
         description := "Contract source code is not verified" }] ∧
    analyzeContract allFalseContract none ≠ [] ∧
    calculateRiskScore (analyzeContract allFalseContract none) = 25 := by
  refine ⟨by decide, by decide, by decide⟩

/-- C1 (amended): with `verified` true, every other boolean false and every
optional field unset, `analyzeContract` with no `TokenInfo` returns the
empty sequence, its score is 0, and `getRiskLevel 0` is `safe`. -/
theorem c1_clean_profile :
    analyzeContract verifiedCleanContract none = [] ∧
    calculateRiskScore (analyzeContract verifiedCleanContract none) = 0 ∧
    getRiskLevel 0 = RiskLevel.safe := by
  refine ⟨by decide, by decide, by decide⟩

/-- C2: the risk list is exactly the ordered rule table filtered to the
rules whose conditions hold (so order matches declaration order and the
tiered severities are the table's); the tags are pairwise distinct; with
`cannotSellAll`, `mintable`, `pausable` all true, `cannot_sell` precedes
`mintable` precedes `pausable` irrespective of any other field; and a set
sell tax above 10 produces `high_sell_tax` with severity critical above 30
and high otherwise. -/
theorem c2_rule_order (c : ContractInfo) (t : Option TokenInfo) :
    analyzeContract c t = evalRules c t ∧
    ((analyzeContract c t).map Risk.type).Nodup ∧
    (c.cannotSellAll = true → c.mintable = true → c.pausable = true →
      List.Sublist ["cannot_sell", "mintable", "pausable"]
        ((analyzeContract c t).map Risk.type)) ∧
    (∀ q : ℚ, c.sellTax = some q → 10 < q →
      { type := "high_sell_tax",
        severity := if 30 < q then Severity.critical else Severity.high,
        description := "High sell tax: " ++ toFixed1 q ++ "%" } ∈ analyzeContract c t) := by
  refine ⟨analyzeContract_eq_evalRules c t,
    allRiskTypes_nodup.sublist (analyzeContract_types_sublist c t), ?_, ?_⟩
  · intro h1 h2 h3
    unfold analyzeContract
    simp only [h1, h2, h3, if_true, List.map_append, List.append_assoc, List.map_cons,
      List.map_nil, List.singleton_append, List.nil_append, List.cons_append]
    refine List.Sublist.cons₂ _ ?_
    refine sublist_cons_skip _ ?_
    refine sublist_cons_skip _ ?_
    refine sublist_cons_skip _ ?_
    refine List.Sublist.cons₂ _ ?_
    refine sublist_cons_skip _ ?_
    refine sublist_cons_skip _ ?_
    refine sublist_cons_skip _ ?_
    refine sublist_cons_skip _ ?_
    refine sublist_cons_skip _ ?_
    exact List.Sublist.cons₂ _ (List.nil_sublist _)
  · intro q hq h10
    have hne : q ≠ 0 := by intro h; rw [h] at h10; norm_num at h10
    simp [analyzeContract, hq, hne, h10]

end Rugcheck

namespace Rugcheck

/-- C2 witness: the rule-order and tiering facts at the concrete contract
with `cannotSellAll`, `mintable`, `pausable` true and `sellTax = 35`. -/
theorem c2_rule_order_witness :
    analyzeContract orderedRiskContract none = evalRules orderedRiskContract none ∧
    List.Sublist ["cannot_sell", "mintable", "pausable"]
      ((analyzeContract orderedRiskContract none).map Risk.type) ∧
    { type := "high_sell_tax",
      severity := if (30 : ℚ) < 35 then Severity.critical else Severity.high,
      description := "High sell tax: " ++ toFixed1 35 ++ "%" } ∈
        analyzeContract orderedRiskContract none := by
  obtain ⟨he, hnd, hord, htier⟩ := c2_rule_order orderedRiskContract none
  exact ⟨he, hord rfl rfl rfl, htier 35 rfl (by norm_num)⟩

/-- C3: `calculateRiskScore` is the weighted sum of the findings
(low 5, medium 15, high 25, critical 40) clamped by 100; it is therefore
within `[0, 100]` and non-decreasing under appending findings. -/
theorem c3_score_clamped_monotone (risks : List Risk) :
    calculateRiskScore risks =
      min 100 ((risks.map (fun r => severityWeight r.severity)).sum) ∧
    calculateRiskScore risks ≤ 100 ∧
    ∀ more : List Risk, calculateRiskScore risks ≤ calculateRiskScore (risks ++ more) := by
  have hfold : ∀ (l : List Risk) (a : ℕ),
      l.foldl (fun sum r => sum + severityWeight r.severity) a =
        a + (l.map (fun r => severityWeight r.severity)).sum := by
    intro l
    induction l with
    | nil => simp
    | cons x xs ih => intro a; simp [ih, Nat.add_assoc]
  refine ⟨by simp [calculateRiskScore, hfold], Nat.min_le_left _ _, ?_⟩
  intro more
  simp only [calculateRiskScore, hfold, Nat.zero_add, List.map_append, List.sum_append]
  exact min_le_min (le_refl 100) (Nat.le_add_right _ _)

/-- C4: `getRiskLevel` is the step function safe `[0,15)`, low `[15,35)`,
medium `[35,55)`, high `[55,75)`, critical `[75,100]`, with the nine pinned
boundary values. -/
theorem c4_classify_bands :
    (∀ score : ℕ, score ≤ 100 →
      ((score < 15 → getRiskLevel score = RiskLevel.safe) ∧
       (15 ≤ score → score < 35 → getRiskLevel score = RiskLevel.low) ∧
       (35 ≤ score → score < 55 → getRiskLevel score = RiskLevel.medium) ∧
       (55 ≤ score → score < 75 → getRiskLevel score = RiskLevel.high) ∧
       (75 ≤ score → getRiskLevel score = RiskLevel.critical))) ∧
    getRiskLevel 14 = RiskLevel.safe ∧ getRiskLevel 15 = RiskLevel.low ∧
    getRiskLevel 34 = RiskLevel.low ∧ getRiskLevel 35 = RiskLevel.medium ∧
    getRiskLevel 54 = RiskLevel.medium ∧ getRiskLevel 55 = RiskLevel.high ∧
    getRiskLevel 74 = RiskLevel.high ∧ getRiskLevel 75 = RiskLevel.critical ∧
    getRiskLevel 100 = RiskLevel.critical := by
  refine ⟨?_, by decide, by decide, by decide, by decide, by decide, by decide,
    by decide, by decide, by decide⟩
  intro s _
  refine ⟨?_, ?_, ?_, ?_, ?_⟩ <;> intros <;> unfold getRiskLevel <;> split_ifs <;>
    first | rfl | omega

/-- C4 witness: band facts at concrete scores. -/
theorem c4_classify_bands_witness :
    getRiskLevel 40 = RiskLevel.medium ∧ getRiskLevel 60 = RiskLevel.high := by
  have h := c4_classify_bands.1
  exact ⟨(h 40 (by norm_num)).2.2.1 (by norm_num) (by norm_num),
    (h 60 (by norm_num)).2.2.2.1 (by norm_num) (by norm_num)⟩

/-- C5: `checkHoneypot` is true precisely when the raw record is present
with `is_honeypot = "1"`, or present with `honeypot_with_same_creator =
"1"`, or `cannotSellAll` is true, or `sellTax` is set and exceeds 50; in
particular it is true at `sellTax = 60` with every other risk flag false. -/
theorem c5_honeypot_iff :
    (∀ (data : Option GoPlusTokenData) (contract : ContractInfo),
      checkHoneypot data contract = true ↔
        ((∃ g, data = some g ∧ g.is_honeypot = some "1") ∨
         (∃ g, data = some g ∧ g.honeypot_with_same_creator = some "1") ∨
         contract.cannotSellAll = true ∨
         (∃ q : ℚ, contract.sellTax = some q ∧ 50 < q))) ∧
    checkHoneypot none sellTax60Contract = true := by
  refine ⟨?_, by decide⟩
  intro data contract
  have hq : ∀ q : ℚ, (¬q = 0 ∧ 50 < q) ↔ 50 < q := fun q =>
    ⟨fun h => h.2, fun h => ⟨fun h0 => by rw [h0] at h; norm_num at h, h⟩⟩
  rcases data with _ | g <;> rcases hst : contract.sellTax with _ | q <;>
    simp [checkHoneypot, hst, hq] <;> tauto

end Rugcheck

namespace Rugcheck

/-- C6: in every `TokenCheck` produced by `checkToken`, `isRugPull` holds
precisely when `riskScore ≥ 70` or `isHoneypot` holds. -/
theorem c6_rugpull_iff (address chain : String) (d : Option GoPlusTokenData) (ts : ℤ) :
    (checkToken address chain d ts).isRugPull = true ↔
      (70 ≤ (checkToken address chain d ts).riskScore ∨
       (checkToken address chain d ts).isHoneypot = true) := by
  simp [checkToken]

/-- C7 counterexample: the degraded `ContractInfo` that `checkToken` builds
when the fetch returns no data has `renounced = false` although its `owner`
is absent, violating the claimed iff. -/
theorem c7_counterexample :
    ¬(((checkToken "0xtoken" "ethereum" none 0).contract.renounced = true) ↔
      ((checkToken "0xtoken" "ethereum" none 0).contract.owner = none ∨
       (checkToken "0xtoken" "ethereum" none 0).contract.owner = some zeroAddress)) := by
  decide

/-- C7 (amended): `parseContractInfo` yields `renounced = true` iff the
owner field is absent, the empty string, or the zero address (JavaScript
string truthiness makes `""` renounced too); the degraded fallback instead
has `renounced = false` with `owner` absent. -/
theorem c7_renounced_iff :
    (∀ data : GoPlusTokenData,
      ((parseContractInfo data).renounced = true ↔
        ((parseContractInfo data).owner = none ∨ (parseContractInfo data).owner = some "" ∨
         (parseContractInfo data).owner = some zeroAddress))) ∧
    (∀ (address chain : String) (ts : ℤ),
      (checkToken address chain none ts).contract.renounced = false ∧
      (checkToken address chain none ts).contract.owner = none) := by
  constructor
  · intro data
    rcases h : data.owner_address with _ | s
    · simp [parseContractInfo, strTruthy, h]
    · simp [parseContractInfo, strTruthy, h]
  · intro address chain ts
    exact ⟨rfl, rfl⟩

set_option maxHeartbeats 1000000 in
/-- When the buy tax is unset or zero, the tags of the risk list form a
subsequence of the vocabulary without `high_buy_tax`. -/
theorem analyzeContract_types_sublist_nobuy (c : ContractInfo) (t : Option TokenInfo)
    (hb : c.buyTax = none ∨ c.buyTax = some 0) :
    List.Sublist ((analyzeContract c t).map Risk.type) riskTypesNoBuyTax := by
  show List.Sublist _
    (["cannot_sell"] ++ ["cannot_buy"] ++ ["self_destruct"] ++ ["unverified"] ++
     ["mintable"] ++ ["hidden_owner"] ++ ["external_call"] ++ ["high_sell_tax"] ++
     ([] : List String) ++ ["ownership"] ++ ["pausable"] ++ ["blacklist"] ++
     ["proxy"] ++ ["slippage_modifiable"] ++ (["creator_concentration"] ++
     ["holder_concentration"] ++ ["low_holders"]) ++ ["anti_whale"] ++
     ["trading_cooldown"])
  unfold analyzeContract
  simp only [List.map_append]
  refine List.Sublist.append ?_ (blockTypes_sublist _ _)
  refine List.Sublist.append ?_ (blockTypes_sublist _ _)
  refine List.Sublist.append ?_ ?_
  case refine_2 =>
    rcases t with _ | ti
    · simp
    · simp only [List.map_append]
      refine List.Sublist.append (List.Sublist.append ?_ ?_) ?_
      · rcases ti.creatorPercent with _ | q
        · simp
        · exact blockTypes_sublist _ _
      · rcases ti.top10HolderPercent with _ | q
        · simp
        · exact blockTypes_sublist _ _
      · rcases ti.holderCount with _ | q
        · simp
        · exact blockTypes_sublist _ _
  refine List.Sublist.append ?_ (blockTypes_sublist _ _)
  refine List.Sublist.append ?_ (blockTypes_sublist _ _)
  refine List.Sublist.append ?_ (blockTypes_sublist _ _)
  refine List.Sublist.append ?_ (blockTypes_sublist _ _)
  refine List.Sublist.append ?_ (blockTypes_sublist _ _)
  refine List.Sublist.append ?_ ?_
  case refine_2 =>
    rcases hb with hb | hb <;> simp [hb]
  refine List.Sublist.append ?_ ?_
  case refine_2 =>
    rcases c.sellTax with _ | q
    · simp
    · exact blockTypes_sublist _ _
  refine List.Sublist.append ?_ (blockTypes_sublist _ _)
  refine List.Sublist.append ?_ (blockTypes_sublist _ _)
  refine List.Sublist.append ?_ (blockTypes_sublist _ _)
  refine List.Sublist.append ?_ (blockTypes_sublist _ _)
  refine List.Sublist.append ?_ (blockTypes_sublist _ _)
  refine List.Sublist.append ?_ (blockTypes_sublist _ _)
  apply blockTypes_sublist

/-- C8: a raw record lacking `buy_tax`, or carrying the literal string
"0", never produces a `high_buy_tax` finding: an unset tax is absent (the
rule does not fire) and a zero tax does not exceed the threshold of 10. -/
theorem c8_no_high_buy_tax (data : GoPlusTokenData) (t : Option TokenInfo)
    (h : data.buy_tax = none ∨ data.buy_tax = some "0") :
    ∀ r ∈ analyzeContract (parseContractInfo data) t, r.type ≠ "high_buy_tax" := by
  have hb : (parseContractInfo data).buyTax = none ∨ (parseContractInfo data).buyTax = some 0 := by
    rcases h with h | h
    · left
      simp [parseContractInfo, h]
    · right
      simp +decide [parseContractInfo, h, parseFloatQ, digitsVal]
  intro r hr hty
  have hmem : r.type ∈ (analyzeContract (parseContractInfo data) t).map Risk.type :=
    List.mem_map_of_mem Risk.type hr
  have hin : r.type ∈ riskTypesNoBuyTax :=
    (analyzeContract_types_sublist_nobuy (parseContractInfo data) t hb).subset hmem
  rw [hty] at hin
  revert hin
  decide

end Rugcheck

namespace Rugcheck

/-- C8 witness: the record with `buy_tax = "0"` yields no `high_buy_tax`
finding. -/
theorem c8_no_high_buy_tax_witness :
    (analyzeContract (parseContractInfo buyTaxZeroData) none).filter
      (fun r => r.type == "high_buy_tax") = [] := by
  refine List.filter_eq_nil_iff.mpr ?_
  intro r hr
  simpa using c8_no_high_buy_tax buyTaxZeroData none (Or.inr rfl) r hr

/-- The windowed batch loop is the plain map of `checkToken` over the
input: slicing in windows of 5 neither reorders nor drops entries. -/
theorem checkTokens_eq_map (fetch : String → String → Option GoPlusTokenData)
    (ts : ℤ) (l : List (String × String)) :
    checkTokens fetch ts l = l.map (fun p => checkToken p.1 p.2 (fetch p.1 p.2) ts) := by
  generalize hn : l.length = n
  induction n using Nat.strong_induction_on generalizing l with
  | _ n ih =>
    rcases l with _ | ⟨p, rest⟩
    · simp [checkTokens]
    · rw [checkTokens]
      have hlt : ((p :: rest).drop 5).length < (p :: rest).length := by
        simp [List.length_drop]
        omega
      rw [ih (((p :: rest).drop 5).length) (hn ▸ hlt) _ rfl]
      rw [← List.map_append, List.take_append_drop]

end Rugcheck

namespace Rugcheck

/-- C9: the batch result has the same length as the input, the i-th result
carries the i-th input's address and chain (output order equals input
order, regardless of the window size of 5), and a pair whose fetch returns
no data degrades to the all-false fallback profile instead of aborting. -/
theorem c9_batch_order (fetch : String → String → Option GoPlusTokenData)
    (ts : ℤ) (tokens : List (String × String)) :
    (checkTokens fetch ts tokens).length = tokens.length ∧
    ∀ i (hi : i < tokens.length) (hi2 : i < (checkTokens fetch ts tokens).length),
      ((checkTokens fetch ts tokens).get ⟨i, hi2⟩).address = (tokens.get ⟨i, hi⟩).1 ∧
      ((checkTokens fetch ts tokens).get ⟨i, hi2⟩).chain = (tokens.get ⟨i, hi⟩).2 ∧
      (fetch (tokens.get ⟨i, hi⟩).1 (tokens.get ⟨i, hi⟩).2 = none →
        ((checkTokens fetch ts tokens).get ⟨i, hi2⟩).contract = fallbackContractInfo) := by
  have h := checkTokens_eq_map fetch ts tokens
  refine ⟨by rw [h]; simp, ?_⟩
  intro i hi hi2
  have hget : (checkTokens fetch ts tokens).get ⟨i, hi2⟩ =
      checkToken (tokens.get ⟨i, hi⟩).1 (tokens.get ⟨i, hi⟩).2
        (fetch (tokens.get ⟨i, hi⟩).1 (tokens.get ⟨i, hi⟩).2) ts := by
    rw [List.get_of_eq h ⟨i, hi2⟩]
    simp
  refine ⟨by rw [hget]; rfl, by rw [hget]; rfl, ?_⟩
  intro hf
  rw [hget, hf]
  rfl

end Rugcheck

namespace Rugcheck

/-- C9 witness: on the two-element batch whose second fetch fails, the
output has length 2 and the second result keeps its address and degrades
to the fallback profile. -/
theorem c9_batch_order_witness :
    (checkTokens exampleFetch 0 exampleBatch).length = 2 ∧
    ((checkTokens exampleFetch 0 exampleBatch).getD 1 junkTokenCheck).address = "0xbbb" ∧
    ((checkTokens exampleFetch 0 exampleBatch).getD 1 junkTokenCheck).contract =
      fallbackContractInfo := by
  obtain ⟨hlen, hidx⟩ := c9_batch_order exampleFetch 0 exampleBatch
  have h1 : (1 : ℕ) < exampleBatch.length := by decide
  have h2 : (1 : ℕ) < (checkTokens exampleFetch 0 exampleBatch).length := by
    rw [hlen]
    decide
  obtain ⟨ha, hc, hdeg⟩ := hidx 1 h1 h2
  have hg : (checkTokens exampleFetch 0 exampleBatch).getD 1 junkTokenCheck =
      (checkTokens exampleFetch 0 exampleBatch).get ⟨1, h2⟩ := by
    rw [List.getD_eq_getElem _ _ h2]
    rfl
  refine ⟨hlen.trans rfl, ?_, ?_⟩
  · rw [hg, ha]
    rfl
  · rw [hg]
    exact hdeg rfl

theorem mapM_loop_of_map_some {α β : Type} (f : α → Option β) :
    ∀ (l : List α) (vals : List β) (acc : List β), l.map f = vals.map some →
      List.mapM.loop f l acc = some (acc.reverse ++ vals) := by
  intro l
  induction l with
  | nil =>
    intro vals acc h
    cases vals with
    | nil => simp [List.mapM.loop]
    | cons v vs => simp at h
  | cons x xs ih =>
    intro vals acc h
    cases vals with
    | nil => simp at h
    | cons v vs =>
      simp only [List.map_cons, List.cons.injEq] at h
      simp [List.mapM.loop, h.1, ih vs (v :: acc) h.2]

/-- A pointwise-defined `Option`-valued map with all results present
determines `mapM`. -/
theorem mapM_of_map_some {α β : Type} (f : α → Option β)
    (l : List α) (vals : List β) (h : l.map f = vals.map some) :
    l.mapM f = some vals := by
  simpa [List.mapM] using mapM_loop_of_map_some f l vals [] h

/-- C10: `parseTokenInfo` sets `top10HolderPercent` to 100 times the sum
of the parsed percent values of at most the first 10 holder entries in
supplied order (all of them when fewer than 10), and to the defined value
0 — not unset — when the holders field is absent. -/
theorem c10_top10_holder_percent (data : GoPlusTokenData) :
    (data.holders = none → (parseTokenInfo data).top10HolderPercent = some 0) ∧
    (∀ (hs : List GoPlusHolder) (vals : List ℚ), data.holders = some hs →
      (hs.take 10).map holderPercentQ = vals.map some →
      (parseTokenInfo data).top10HolderPercent = some (vals.sum * 100)) := by
  constructor
  · intro h
    simp [parseTokenInfo, h]
  · intro hs vals hh hm
    have hmm2 : List.mapM.loop holderPercentQ (hs.take 10) [] = some vals := by
      simpa [List.mapM] using mapM_of_map_some holderPercentQ _ _ hm
    simp [parseTokenInfo, hh, hmm2]

/-- C10 witness: three holders at fractions 0.1, 0.2, 0.3 give a top-10
concentration of 60%. -/
theorem c10_top10_holder_percent_witness :
    (parseTokenInfo threeHoldersData).top10HolderPercent = some 60 := by
  have h := (c10_top10_holder_percent threeHoldersData).2
    [{ address := "0xa", percent := "0.1" }, { address := "0xb", percent := "0.2" },
     { address := "0xc", percent := "0.3" }]
    [1/10, 1/5, 3/10] rfl
    (by simp +decide [holderPercentQ, parseFloatQ, digitsVal]; norm_num)
  rw [h]
  norm_num

end Rugcheck
